import Mathlib

/-!
Shallow embedding of the child-process execution subsystem of bdrck
(src/bdrck/process/Pipe.cpp, src/bdrck/process/Process.cpp), POSIX branch.

Machine `int` / `pid_t` / `int64_t` values are modelled as `Int`; the casts
`pipeCastToNative` / `pipeCastFromNative` are `static_cast`s between `int`
and `int64_t` and are modelled as the identity (faithful on the `int`
range, which is the only range descriptors inhabit).

OS effects (close(2), read(2), waitpid(2), fork(2)) are modelled by explicit
state passing / outcome traces supplied as parameters; C++ exceptions are
modelled with `Except`.
-/

namespace Bdrck

/-- `PipeDescriptor` (`int64_t` in PipeCast.hpp). -/
abbrev PipeDescriptor := Int

/-- `NativePipe` (`int` on POSIX). -/
abbrev NativePipe := Int

/-- `INVALID_PIPE_VALUE` (POSIX: `-1`). -/
def INVALID_PIPE_VALUE : NativePipe := -1

/-- `pipeCastToNative` (PipeCast.cpp): `static_cast<int>` of an `int64_t`
holding an `int`-ranged value; identity in the model. -/
def pipeCastToNative (p : PipeDescriptor) : NativePipe := p

/-- `pipeCastFromNative` (PipeCast.cpp): `static_cast<int64_t>`. -/
def pipeCastFromNative (p : NativePipe) : PipeDescriptor := p

/-- `enum class PipeSide` (Pipe.hpp). -/
inductive PipeSide
| READ
| WRITE
deriving DecidableEq, Repr

/-- The standard-stream enum used by Process.cpp / Pipe.cpp
(`StdStream::STDIN`, `STDOUT`, `STDERR`). -/
inductive StdStream
| STDIN
| STDOUT
| STDERR
deriving DecidableEq, Repr

/-- `detail::PipeImpl` (Pipe.cpp): two native descriptors; its copy
constructor/assignment are the compiler defaults, i.e. member-wise copies
of the raw descriptor values. -/
structure PipeImpl where
  read : NativePipe
  write : NativePipe
deriving DecidableEq, Repr

/-- `class Pipe` (Pipe.hpp): owns a `PipeImpl` behind a `unique_ptr`. -/
structure Pipe where
  impl : PipeImpl
deriving DecidableEq, Repr

/-- `Pipe::Pipe(Pipe const &o)` (Pipe.cpp): constructs a fresh `PipeImpl`
by copying `*o.impl`, i.e. copies both raw descriptor values. -/
def Pipe.copy (o : Pipe) : Pipe := ⟨⟨o.impl.read, o.impl.write⟩⟩

/-- `Pipe::get` (Pipe.cpp): raw descriptor of the requested side. -/
def Pipe.get (p : Pipe) (side : PipeSide) : PipeDescriptor :=
  match side with
  | .READ => pipeCastFromNative p.impl.read
  | .WRITE => pipeCastFromNative p.impl.write

/-- `Pipe::set` (Pipe.cpp): overwrite the descriptor of one side. -/
def Pipe.set (p : Pipe) (side : PipeSide) (descriptor : PipeDescriptor) : Pipe :=
  match side with
  | .READ => ⟨⟨pipeCastToNative descriptor, p.impl.write⟩⟩
  | .WRITE => ⟨⟨p.impl.read, pipeCastToNative descriptor⟩⟩

/-- `StandardStreamPipes` (`std::map<StdStream, Pipe>`): after
`pipe::openPipes` it holds exactly one `Pipe` per stream, so it is
modelled as a record with one field per stream. -/
structure StandardStreamPipes where
  stdinPipe : Pipe
  stdoutPipe : Pipe
  stderrPipe : Pipe
deriving DecidableEq, Repr

/-- `pipes.at(stream)` on the three-entry map. -/
def StandardStreamPipes.at (ps : StandardStreamPipes) : StdStream → Pipe
  | .STDIN => ps.stdinPipe
  | .STDOUT => ps.stdoutPipe
  | .STDERR => ps.stderrPipe

/-- In-place mutation of one map entry (`pipes.at(stream)` as an lvalue). -/
def StandardStreamPipes.update (ps : StandardStreamPipes) :
    StdStream → Pipe → StandardStreamPipes
  | .STDIN, p => { ps with stdinPipe := p }
  | .STDOUT, p => { ps with stdoutPipe := p }
  | .STDERR, p => { ps with stderrPipe := p }

/-- Parent-process kernel state relevant to pipes: which descriptors are
open in the parent, and how many `close(2)` system calls have been issued. -/
structure OsState where
  openFds : List NativePipe
  closeCalls : Nat
deriving DecidableEq, Repr

/-- Effect of a successful `close(2)` on descriptor `fd`. -/
def osClose (s : OsState) (fd : NativePipe) : OsState :=
  ⟨s.openFds.filter (fun d => d ≠ fd), s.closeCalls + 1⟩

/-- `pipe::close(PipeDescriptor const &)` (Pipe.cpp): if the descriptor is
`INVALID_PIPE_VALUE` it returns without any system call; otherwise it
issues `close(2)`. -/
def pipeCloseDescriptor (s : OsState) (p : PipeDescriptor) : OsState :=
  if pipeCastToNative p = INVALID_PIPE_VALUE then s
  else osClose s (pipeCastToNative p)

/-- `pipe::close(Pipe const &, PipeSide)` (Pipe.cpp). -/
def pipeClose (s : OsState) (p : Pipe) (side : PipeSide) : OsState :=
  pipeCloseDescriptor s (p.get side)

/-- `pipe::closeParentSide` (Pipe.cpp): closes STDIN write, STDOUT read,
STDERR read. -/
def closeParentSide (s : OsState) (ps : StandardStreamPipes) : OsState :=
  pipeClose (pipeClose (pipeClose s (ps.at .STDIN) .WRITE)
    (ps.at .STDOUT) .READ) (ps.at .STDERR) .READ

/-- `pipe::closeChildSide` (Pipe.cpp): closes STDIN read, STDOUT write,
STDERR write. -/
def closeChildSide (s : OsState) (ps : StandardStreamPipes) : OsState :=
  pipeClose (pipeClose (pipeClose s (ps.at .STDIN) .READ)
    (ps.at .STDOUT) .WRITE) (ps.at .STDERR) .WRITE

/-- `Process::getPipe` (Process.cpp): STDIN yields the write side,
STDOUT/STDERR the read side; the trailing `return INVALID` after the
switch is dead code since every enumerator is handled. -/
def Process.getPipe (ps : StandardStreamPipes) (stream : StdStream) :
    PipeDescriptor :=
  match stream with
  | .STDIN => (ps.at .STDIN).get .WRITE
  | .STDOUT => (ps.at .STDOUT).get .READ
  | .STDERR => (ps.at .STDERR).get .READ

/-- `Process::closePipe` (Process.cpp): pick the parent's side (WRITE for
STDIN, READ otherwise), `pipe::close` it, then overwrite that side with
the sentinel `INVALID_PIPE_VALUE` via `Pipe::set`. Returns the updated
kernel state and pipe map. -/
def Process.closePipe (s : OsState) (ps : StandardStreamPipes)
    (stream : StdStream) : OsState × StandardStreamPipes :=
  let pipe := ps.at stream
  let side : PipeSide := if stream = .STDIN then .WRITE else .READ
  let s1 := pipeClose s pipe side
  let pipe1 := pipe.set side (pipeCastFromNative INVALID_PIPE_VALUE)
  (s1, ps.update stream pipe1)

/-! ### Pipe reading (Pipe.cpp, POSIX branch)

A call to `read(2)` is modelled by its outcome: a non-empty chunk of
bytes (return value > 0), end of file (return value 0), or a failure
(return value -1 with the given `errno`).  A run of `pipe::read` /
`pipe::readAll` consumes a trace of such outcomes, one per issued
`read(2)`.  `util::error::throwErrnoError` (Error.cpp) throws a
`runtime_error` built from `errno`; it is modelled as `Except.error`
carrying the errno value. -/

/-- Outcome of one `read(2)` call on a pipe descriptor. -/
inductive ReadResult
| chunk (data : String)
| eof
| fail (errno : Nat)
deriving DecidableEq, Repr

/-- `errno` value `EINTR` (4 on Linux). -/
def EINTR : Nat := 4

/-- The loop of `pipe::read(PipeDescriptor, count)` (Pipe.cpp): while
`count > 0`, issue `read(2)`; `-1` throws the errno error immediately,
`0` breaks, a chunk is appended and deducted from `count`.  The trace
ending before the loop does is read as the pipe never delivering more
data (the remaining blocking read is cut off); the loop body is
translated verbatim. -/
def pipeReadLoop (os : List ReadResult) (count : Nat) (acc : String) :
    Except Nat String :=
  match os with
  | [] => .ok acc
  | r :: rest =>
    if count = 0 then .ok acc
    else
      match r with
      | .fail e => .error e
      | .eof => .ok acc
      | .chunk s => pipeReadLoop rest (count - s.length) (acc ++ s)

/-- `pipe::read(PipeDescriptor, count)` (Pipe.cpp). -/
def pipeRead (os : List ReadResult) (count : Nat) : Except Nat String :=
  pipeReadLoop os count ""

/-- The loop of `pipe::readAll` (Pipe.cpp): issue `read(2)` until it
returns `0`; `-1` throws the errno error immediately, any chunk is
appended. -/
def readAllLoop (os : List ReadResult) (acc : String) : Except Nat String :=
  match os with
  | [] => .ok acc
  | .fail e :: _ => .error e
  | .eof :: _ => .ok acc
  | .chunk s :: rest => readAllLoop rest (acc ++ s)

/-- `pipe::readAll(PipeDescriptor)` (Pipe.cpp). -/
def readAll (os : List ReadResult) : Except Nat String :=
  readAllLoop os ""

/-! ### Process handles and waiting (Process.cpp, POSIX branch) -/

/-- `NativeProcessHandle` is `pid_t`; `INVALID_PROCESS_HANDLE_VALUE` is
`-1`. -/
def INVALID_PROCESS_HANDLE_VALUE : Int := -1

/-- `EXIT_SUCCESS`. -/
def EXIT_SUCCESS : Int := 0

/-- `detail::ProcessHandle` (Process.cpp): wraps the native handle. -/
structure ProcessHandle where
  handle : Int
deriving DecidableEq, Repr

/-- Decoded `waitpid` status of a terminated child: `WIFEXITED` with
`WEXITSTATUS`, or `WIFSIGNALED` with `WTERMSIG`.  (With `options = 0`
no stopped/continued statuses are reported.) -/
inductive WaitStatus
| exited (code : Nat)
| signaled (sig : Nat)
deriving DecidableEq, Repr

/-- How a child actually terminated: `exit(rawCode)` for any integer
argument, or death by a signal. -/
inductive ChildTermination
| exited (rawCode : Nat)
| signaled (sig : Nat)
deriving DecidableEq, Repr

/-- What the OS stores in the `waitpid` status word: on normal exit only
the low 8 bits of the exit argument are preserved (`WEXITSTATUS` is the
value modulo 256). -/
def osWaitStatus : ChildTermination → WaitStatus
  | .exited k => .exited (k % 256)
  | .signaled s => .signaled s

/-- Outcome of one `waitpid(2)` call: failure (return `-1` with the
given `errno`) or the status word of the terminated child. -/
inductive WaitOutcome
| fail (errno : Nat)
| status (st : WaitStatus)
deriving DecidableEq, Repr

/-- Errors thrown out of `waitOnProcessHandle`: an errno error from
`throwErrnoError`, or the `runtime_error` built by
`throwChildSignalError` from `strsignal(sig)` (a message naming the
signal), modelled by the signal number it is built from. -/
inductive WaitError
| errnoError (e : Nat)
| signalError (sig : Nat)
deriving DecidableEq, Repr

/-- The `while(waitpid(...) == -1)` loop (Process.cpp): an `EINTR`
failure retries, any other failure throws the errno error, a status ends
the loop.  Returns the loop result together with the number of
`waitpid(2)` calls issued.  The empty trace would mean `waitpid` never
returning, which cannot happen for a blocking call; it is mapped to an
errno error for totality. -/
def runWaitpid : List WaitOutcome → Except Nat WaitStatus × Nat
  | [] => (.error 0, 0)
  | .fail e :: rest =>
    if e = EINTR then
      let r := runWaitpid rest
      (r.1, r.2 + 1)
    else (.error e, 1)
  | .status st :: _ => (.ok st, 1)

instance {ε α : Type} [DecidableEq ε] [DecidableEq α] :
    DecidableEq (Except ε α) := fun x y =>
  match x, y with
  | .ok a, .ok b =>
    if h : a = b then .isTrue (by rw [h])
    else .isFalse (fun hh => h (Except.ok.inj hh))
  | .error a, .error b =>
    if h : a = b then .isTrue (by rw [h])
    else .isFalse (fun hh => h (Except.error.inj hh))
  | .ok _, .error _ => .isFalse (fun hh => Except.noConfusion hh)
  | .error _, .ok _ => .isFalse (fun hh => Except.noConfusion hh)

/-- Result of one `waitOnProcessHandle` run: the returned exit code or
thrown error, the handle value after the run, and the number of
`waitpid(2)` calls issued. -/
structure WaitRun where
  result : Except WaitError Int
  handle : ProcessHandle
  osCalls : Nat
deriving DecidableEq, Repr

/-- `waitOnProcessHandle` (Process.cpp, POSIX branch): an invalid handle
returns `EXIT_SUCCESS` at once with no system call; otherwise the
`waitpid` loop runs, the handle is invalidated, and the status is
decoded — normal exit returns `WEXITSTATUS`, signal termination throws
via `throwChildSignalError`.  (A failing `waitpid` throws before the
handle is overwritten.) -/
def waitOnProcessHandle (os : List WaitOutcome) (h : ProcessHandle) :
    WaitRun :=
  if h.handle = INVALID_PROCESS_HANDLE_VALUE then
    ⟨.ok EXIT_SUCCESS, h, 0⟩
  else
    match runWaitpid os with
    | (.error e, n) => ⟨.error (.errnoError e), h, n⟩
    | (.ok (.exited code), n) =>
      ⟨.ok (code : Int), ⟨INVALID_PROCESS_HANDLE_VALUE⟩, n⟩
    | (.ok (.signaled sig), n) =>
      ⟨.error (.signalError sig), ⟨INVALID_PROCESS_HANDLE_VALUE⟩, n⟩

/-! ### launchProcess (Process.cpp, POSIX branch), parent side

`fork(2)` either fails (`-1` with an errno) or, in the parent, returns
the child's pid; the `pid == 0` child branch runs in the child process
and is not part of the parent-side function being modelled.  The
parent-visible steps are recorded as an event trace. -/

/-- Outcome of the `fork()` call as seen by the parent process. -/
inductive ForkResult
| failed (errno : Nat)
| parent (childPid : Int)
deriving DecidableEq, Repr

/-- Errors thrown out of `launchProcess` in the parent: an errno error
(`fork` failure, or a failing `read(2)` while draining the error pipe),
or the `runtime_error` carrying the child-reported launch message. -/
inductive LaunchError
| errnoError (e : Nat)
| launchError (message : String)
deriving DecidableEq, Repr

/-- Parent-visible steps of `launchProcess`, in program order. -/
inductive LaunchEvent
| createErrorPipe
| openStdPipes
| forkCall
| closeEnd (descriptor : PipeDescriptor)
| readErrorPipe
deriving DecidableEq, Repr

/-- Is this event an operation on a pipe (creating it, closing an end,
or reading from it)? -/
def LaunchEvent.touchesPipe : LaunchEvent → Bool
  | .createErrorPipe => true
  | .openStdPipes => true
  | .forkCall => false
  | .closeEnd _ => true
  | .readErrorPipe => true

/-- Is this event an operation on an already-created pipe's end
(closing or reading)? -/
def LaunchEvent.usesPipeEnd : LaunchEvent → Bool
  | .createErrorPipe => false
  | .openStdPipes => false
  | .forkCall => false
  | .closeEnd _ => true
  | .readErrorPipe => true

/-- The parent branch of `launchProcess` after `fork` returned the child
pid (Process.cpp lines 331-348): close the error pipe's write end, close
the child side of the three standard pipes, drain the error pipe, close
its read end, then throw the accumulated message if non-empty, else
return the pid.  A failing `read(2)` throws before the read end is
closed. -/
def launchParentBranch (s : OsState) (errorPipe : Pipe)
    (ps : StandardStreamPipes) (os : List ReadResult) (pid : Int) :
    OsState × Except LaunchError Int :=
  let s1 := pipeClose s errorPipe .WRITE
  let s2 := closeChildSide s1 ps
  match readAll os with
  | .error e => (s2, .error (.errnoError e))
  | .ok message =>
    let s3 := pipeClose s2 errorPipe .READ
    if message = "" then (s3, .ok pid)
    else (s3, .error (.launchError message))

/-- `launchProcess` (Process.cpp, POSIX branch), parent-side semantics as
an event trace: construct the error pipe (`O_CLOEXEC`), open the three
standard pipes, call `fork`; a failed `fork` throws the errno error at
once, otherwise the parent branch runs.  `errorPipe` and `ps` stand for
the pipes the two creation steps produced. -/
def launchProcess (s : OsState) (errorPipe : Pipe)
    (ps : StandardStreamPipes) (fork : ForkResult)
    (os : List ReadResult) :
    List LaunchEvent × OsState × Except LaunchError Int :=
  let created : List LaunchEvent :=
    [.createErrorPipe, .openStdPipes, .forkCall]
  match fork with
  | .failed e => (created, s, .error (.errnoError e))
  | .parent pid =>
    let branch := launchParentBranch s errorPipe ps os pid
    let branchEvents : List LaunchEvent :=
      [.closeEnd (errorPipe.get .WRITE),
       .closeEnd ((ps.at .STDIN).get .READ),
       .closeEnd ((ps.at .STDOUT).get .WRITE),
       .closeEnd ((ps.at .STDERR).get .WRITE),
       .readErrorPipe] ++
      (match readAll os with
       | .error _ => []
       | .ok _ => [.closeEnd (errorPipe.get .READ)])
    (created ++ branchEvents, branch.1, branch.2)

/-! ### ProcessArguments (Process.cpp)

`char *` strings owned by the argv container are modelled as `String`;
the null pointer entries of the pointer array as `none`. -/

/-- `duplicateArgvStrings` (Process.cpp): a copy of the path followed by
a copy of each argument, in order. -/
def duplicateArgvStrings (path : String) (arguments : List String) :
    List String :=
  path :: arguments

/-- `toArgvPointers` (Process.cpp): a vector of `argv.size() + 1`
pointers, all initialised to null, whose first `argv.size()` entries are
then set to the container's strings. -/
def toArgvPointers (argv : List String) : List (Option String) :=
  (List.range (argv.length + 1)).map
    (fun i => if h : i < argv.length then some (argv.get ⟨i, h⟩) else none)

/-- `ProcessArguments` (Process.hpp/Process.cpp): all members are built
in the constructor's initialiser list and declared `const` (or point
into `const` members), so the argv array is built once and never
mutated. -/
structure ProcessArguments where
  path : String
  arguments : List String
  argvContainer : List String
  argvPointers : List (Option String)
deriving DecidableEq, Repr

/-- `ProcessArguments::ProcessArguments` (Process.cpp). -/
def ProcessArguments.construct (p : String) (a : List String) :
    ProcessArguments :=
  let container := duplicateArgvStrings p a
  ⟨p, a, container, toArgvPointers container⟩

/-! ### Helper lemmas -/

/-- The child-side descriptor of each stream: the end `closeChildSide`
closes in the parent. -/
def childSideDescriptor (ps : StandardStreamPipes) : StdStream → PipeDescriptor
  | .STDIN => (ps.at .STDIN).get .READ
  | .STDOUT => (ps.at .STDOUT).get .WRITE
  | .STDERR => (ps.at .STDERR).get .WRITE

theorem mem_pipeCloseDescriptor {fd : NativePipe} {s : OsState}
    (d : PipeDescriptor) (h : fd ∈ s.openFds) (hne : fd ≠ pipeCastToNative d) :
    fd ∈ (pipeCloseDescriptor s d).openFds := by
  unfold pipeCloseDescriptor
  split
  · exact h
  · exact List.mem_filter.mpr ⟨h, by simpa using hne⟩

theorem pipeCloseDescriptor_subset {fd : NativePipe} {s : OsState}
    (d : PipeDescriptor) (h : fd ∈ (pipeCloseDescriptor s d).openFds) :
    fd ∈ s.openFds := by
  unfold pipeCloseDescriptor at h
  split at h
  · exact h
  · exact (List.mem_filter.mp h).1

theorem not_mem_osClose (s : OsState) (fd : NativePipe) :
    fd ∉ (osClose s fd).openFds := by
  simp [osClose, List.mem_filter]

theorem not_mem_pipeCloseDescriptor {d : PipeDescriptor} (s : OsState)
    (hvalid : pipeCastToNative d ≠ INVALID_PIPE_VALUE) :
    pipeCastToNative d ∉ (pipeCloseDescriptor s d).openFds := by
  unfold pipeCloseDescriptor
  split
  · exact absurd (by assumption) hvalid
  · exact not_mem_osClose s _

/-! ### Claim theorems: pipe accessors and teardown -/

/-- C6: `Process::getPipe` returns the end of the corresponding pipe the
parent is meant to use — the write side for STDIN, the read side for
STDOUT and STDERR; consequently, when that descriptor is open and
distinct from the child-side ends, it survives the parent's
`closeChildSide` teardown untouched. -/
theorem getPipe_parent_end :
    (∀ ps : StandardStreamPipes,
      Process.getPipe ps .STDIN = (ps.at .STDIN).get .WRITE ∧
      Process.getPipe ps .STDOUT = (ps.at .STDOUT).get .READ ∧
      Process.getPipe ps .STDERR = (ps.at .STDERR).get .READ) ∧
    (∀ (s : OsState) (ps : StandardStreamPipes) (stream : StdStream),
      pipeCastToNative (Process.getPipe ps stream) ∈ s.openFds →
      (∀ t : StdStream,
        Process.getPipe ps stream ≠ childSideDescriptor ps t) →
      pipeCastToNative (Process.getPipe ps stream) ∈
        (closeChildSide s ps).openFds) := by
  constructor
  · intro ps
    exact ⟨rfl, rfl, rfl⟩
  · intro s ps stream hmem hne
    unfold closeChildSide pipeClose
    exact mem_pipeCloseDescriptor _
      (mem_pipeCloseDescriptor _
        (mem_pipeCloseDescriptor _ hmem (hne .STDIN)) (hne .STDOUT))
      (hne .STDERR)

/-- Witness for `getPipe_parent_end` at a concrete pipe set. -/
theorem getPipe_parent_end_witness :
    pipeCastToNative
        (Process.getPipe ⟨⟨⟨3, 4⟩⟩, ⟨⟨5, 6⟩⟩, ⟨⟨7, 8⟩⟩⟩ .STDOUT) ∈
      (closeChildSide ⟨[3, 4, 5, 6, 7, 8], 0⟩
        ⟨⟨⟨3, 4⟩⟩, ⟨⟨5, 6⟩⟩, ⟨⟨7, 8⟩⟩⟩).openFds :=
  getPipe_parent_end.2 ⟨[3, 4, 5, 6, 7, 8], 0⟩
    ⟨⟨⟨3, 4⟩⟩, ⟨⟨5, 6⟩⟩, ⟨⟨7, 8⟩⟩⟩ .STDOUT (by decide)
    (by intro t; cases t <;> decide)

/-- C10: after `Process::closePipe(stream)`, `Process::getPipe(stream)`
returns the sentinel `INVALID_PIPE_VALUE` cast to `PipeDescriptor`,
because `closePipe` overwrites the closed side with the sentinel via
`Pipe::set`. -/
theorem getPipe_after_closePipe (s : OsState) (ps : StandardStreamPipes)
    (stream : StdStream) :
    Process.getPipe (Process.closePipe s ps stream).2 stream =
      pipeCastFromNative INVALID_PIPE_VALUE := by
  cases stream <;> rfl

/-- C5: `Process::closePipe` is idempotent — `pipe::close` on the
sentinel descriptor is a no-op (no system call, state unchanged), so a
second `closePipe` on the same stream changes neither the kernel state
(in particular it issues no second `close(2)`) nor the pipe map. -/
theorem closePipe_idempotent :
    (∀ s : OsState,
      pipeCloseDescriptor s (pipeCastFromNative INVALID_PIPE_VALUE) = s) ∧
    (∀ (s : OsState) (ps : StandardStreamPipes) (stream : StdStream),
      Process.closePipe (Process.closePipe s ps stream).1
        (Process.closePipe s ps stream).2 stream =
        Process.closePipe s ps stream) := by
  constructor
  · intro s
    rfl
  · intro s ps stream
    cases stream <;> rfl

/-- C9: the `Pipe` copy constructor copies the raw descriptor values
(`q.get(s) == p.get(s)` for every side), so the copy aliases the same
OS pipe ends: closing a valid side through the copy removes exactly the
original's descriptor from the open set. -/
theorem pipe_copy_aliases :
    (∀ (p : Pipe) (side : PipeSide), (Pipe.copy p).get side = p.get side) ∧
    (∀ (s : OsState) (p : Pipe) (side : PipeSide),
      pipeCastToNative (p.get side) ≠ INVALID_PIPE_VALUE →
      pipeCastToNative (p.get side) ∉
        (pipeClose s (Pipe.copy p) side).openFds) := by
  constructor
  · intro p side
    cases side <;> rfl
  · intro s p side hvalid
    have hcopy : (Pipe.copy p).get side = p.get side := by
      cases side <;> rfl
    unfold pipeClose
    rw [hcopy]
    exact not_mem_pipeCloseDescriptor s hvalid

/-- Witness for `pipe_copy_aliases` at a concrete pipe. -/
theorem pipe_copy_aliases_witness :
    pipeCastToNative (Pipe.get ⟨⟨3, 4⟩⟩ .READ) ∉
      (pipeClose ⟨[3, 4], 0⟩ (Pipe.copy ⟨⟨3, 4⟩⟩) .READ).openFds :=
  pipe_copy_aliases.2 ⟨[3, 4], 0⟩ ⟨⟨3, 4⟩⟩ .READ (by decide)

/-! ### Claim theorems: pipe reads and EINTR -/

/-- C4, counterexample: an `EINTR` failure of the underlying `read(2)`
is surfaced to the caller as an errno error by both `pipe::read` and
`pipe::readAll` — it is not retried. -/
theorem eintr_read_counterexample :
    pipeRead [ReadResult.fail EINTR] 1 = .error EINTR ∧
    readAll [ReadResult.fail EINTR] = .error EINTR :=
  ⟨rfl, rfl⟩

/-- C4, amended: a `read(2)` failure with any errno — `EINTR` included —
makes `pipe::read` (while bytes remain requested) and `pipe::readAll`
throw the errno error immediately; neither retries nor treats the
failure as end-of-file. -/
theorem eintr_read_amended :
    (∀ (os : List ReadResult) (e : Nat) (count : Nat) (acc : String),
      count ≠ 0 →
      pipeReadLoop (ReadResult.fail e :: os) count acc = .error e) ∧
    (∀ (os : List ReadResult) (e : Nat) (acc : String),
      readAllLoop (ReadResult.fail e :: os) acc = .error e) := by
  constructor
  · intro os e count acc hcount
    unfold pipeReadLoop
    simp [hcount]
  · intro os e acc
    rfl

/-- Witness for `eintr_read_amended` at `EINTR` itself. -/
theorem eintr_read_amended_witness :
    pipeReadLoop [ReadResult.fail EINTR] 7 "" = .error EINTR :=
  eintr_read_amended.1 [] EINTR 7 "" (by decide)

/-! ### Claim theorems: waiting on the child -/

theorem runWaitpid_all_eintr (st : WaitStatus) :
    ∀ pre : List WaitOutcome,
      (∀ x ∈ pre, x = WaitOutcome.fail EINTR) →
      runWaitpid (pre ++ [WaitOutcome.status st]) =
        (.ok st, pre.length + 1) := by
  intro pre
  induction pre with
  | nil => intro _; rfl
  | cons hd tl ih =>
    intro hall
    have hhd : hd = WaitOutcome.fail EINTR := hall hd (by simp)
    have htl : ∀ x ∈ tl, x = WaitOutcome.fail EINTR := by
      intro x hx
      exact hall x (by simp [hx])
    subst hhd
    simp [runWaitpid, ih htl]

/-- C2: with a valid handle, `wait` loops over `waitpid`, transparently
retrying every `EINTR` failure (one OS call per retry, then one for the
final status); a child that exited normally with raw code `K` yields
return value `K mod 256` exactly as the OS preserved it, and a child
terminated by signal `sig` makes `wait` throw the signal-naming error
(built from `strsignal`) instead of returning a code. -/
theorem wait_termination_behavior :
    (∀ os : List WaitOutcome,
      runWaitpid (WaitOutcome.fail EINTR :: os) =
        ((runWaitpid os).1, (runWaitpid os).2 + 1)) ∧
    (∀ (pid : Int) (k : Nat) (pre : List WaitOutcome),
      pid ≠ INVALID_PROCESS_HANDLE_VALUE →
      (∀ x ∈ pre, x = WaitOutcome.fail EINTR) →
      waitOnProcessHandle
          (pre ++ [WaitOutcome.status (osWaitStatus (.exited k))]) ⟨pid⟩ =
        ⟨.ok ((k % 256 : Nat) : Int), ⟨INVALID_PROCESS_HANDLE_VALUE⟩,
          pre.length + 1⟩) ∧
    (∀ (pid : Int) (sig : Nat) (pre : List WaitOutcome),
      pid ≠ INVALID_PROCESS_HANDLE_VALUE →
      (∀ x ∈ pre, x = WaitOutcome.fail EINTR) →
      waitOnProcessHandle
          (pre ++ [WaitOutcome.status (osWaitStatus (.signaled sig))]) ⟨pid⟩ =
        ⟨.error (.signalError sig), ⟨INVALID_PROCESS_HANDLE_VALUE⟩,
          pre.length + 1⟩) := by
  refine ⟨?_, ?_, ?_⟩
  · intro os
    simp [runWaitpid, EINTR]
  · intro pid k pre hpid hall
    unfold waitOnProcessHandle
    rw [if_neg hpid, runWaitpid_all_eintr _ pre hall]
    simp [osWaitStatus]
  · intro pid sig pre hpid hall
    unfold waitOnProcessHandle
    rw [if_neg hpid, runWaitpid_all_eintr _ pre hall]
    simp [osWaitStatus]

/-- Witness for `wait_termination_behavior`: one `EINTR` retry, then a
child that called `exit(300)`; `wait` returns `300 mod 256 = 44`. -/
theorem wait_termination_behavior_witness :
    waitOnProcessHandle
        [WaitOutcome.fail EINTR,
         WaitOutcome.status (osWaitStatus (.exited 300))] ⟨5⟩ =
      ⟨.ok 44, ⟨INVALID_PROCESS_HANDLE_VALUE⟩, 2⟩ :=
  wait_termination_behavior.2.1 5 300 [WaitOutcome.fail EINTR]
    (by decide) (by decide)

/-- C3, counterexample: a first `wait` that observes exit code 137
returns 137, but a second `wait` on the resulting (invalidated) handle
returns `EXIT_SUCCESS = 0`, not the first call's result. -/
theorem second_wait_counterexample :
    (waitOnProcessHandle [WaitOutcome.status (WaitStatus.exited 137)]
        ⟨5⟩).result = .ok 137 ∧
    (waitOnProcessHandle []
        (waitOnProcessHandle [WaitOutcome.status (WaitStatus.exited 137)]
          ⟨5⟩).handle).result = .ok 0 ∧
    (waitOnProcessHandle []
        (waitOnProcessHandle [WaitOutcome.status (WaitStatus.exited 137)]
          ⟨5⟩).handle).result ≠
      (waitOnProcessHandle [WaitOutcome.status (WaitStatus.exited 137)]
        ⟨5⟩).result := by
  refine ⟨rfl, rfl, ?_⟩
  decide

/-- C3, amended: once a first `wait` has observed the child's
termination (the stored handle became the invalid sentinel), every
subsequent `wait` returns `EXIT_SUCCESS` (0) immediately — no blocking,
no error, and no further OS wait call; this equals the first call's
result only when the child exited with code 0. -/
theorem second_wait_amended (os os2 : List WaitOutcome) (h : ProcessHandle)
    (hdone : (waitOnProcessHandle os h).handle.handle =
      INVALID_PROCESS_HANDLE_VALUE) :
    waitOnProcessHandle os2 (waitOnProcessHandle os h).handle =
      ⟨.ok EXIT_SUCCESS, (waitOnProcessHandle os h).handle, 0⟩ := by
  generalize hw : waitOnProcessHandle os h = w at hdone ⊢
  unfold waitOnProcessHandle
  rw [if_pos hdone]

/-- Witness for `second_wait_amended` after a first successful wait. -/
theorem second_wait_amended_witness :
    waitOnProcessHandle []
        (waitOnProcessHandle [WaitOutcome.status (WaitStatus.exited 0)]
          ⟨5⟩).handle =
      ⟨.ok EXIT_SUCCESS,
        (waitOnProcessHandle [WaitOutcome.status (WaitStatus.exited 0)]
          ⟨5⟩).handle, 0⟩ :=
  second_wait_amended [WaitOutcome.status (WaitStatus.exited 0)] [] ⟨5⟩
    (by decide)

/-! ### Claim theorems: launch -/

/-- A `read(2)` trace delivering the given chunks and then end-of-file
(the error pipe's write ends all closed). -/
def eofTrace (chunks : List String) : List ReadResult :=
  chunks.map ReadResult.chunk ++ [ReadResult.eof]

/-- Concatenation of the chunks a read trace delivered. -/
def joinChunks : List String → String
  | [] => ""
  | c :: cs => c ++ joinChunks cs

theorem readAllLoop_eofTrace (chunks : List String) :
    ∀ acc, readAllLoop (eofTrace chunks) acc =
      .ok (acc ++ joinChunks chunks) := by
  induction chunks with
  | nil => intro acc; simp [eofTrace, readAllLoop, joinChunks]
  | cons c cs ih =>
    intro acc
    rw [show eofTrace (c :: cs) = ReadResult.chunk c :: eofTrace cs from rfl,
      show ∀ rest, readAllLoop (ReadResult.chunk c :: rest) acc =
        readAllLoop rest (acc ++ c) from fun rest => rfl,
      ih (acc ++ c)]
    simp [joinChunks, String.append_assoc]

theorem readAll_eofTrace (chunks : List String) :
    readAll (eofTrace chunks) = .ok (joinChunks chunks) := by
  rw [readAll, readAllLoop_eofTrace]
  simp

theorem mem_closeChildSide {fd : NativePipe} {s : OsState}
    {ps : StandardStreamPipes} (h : fd ∈ (closeChildSide s ps).openFds) :
    fd ∈ s.openFds :=
  pipeCloseDescriptor_subset _
    (pipeCloseDescriptor_subset _ (pipeCloseDescriptor_subset _ h))

/-- C1: the parent branch of `launchProcess` closes the error pipe's
write end and the child-side ends of the three standard pipes, drains
the error pipe to exhaustion (accumulating every chunk up to EOF), and
then fails with exactly the accumulated message when it is non-empty —
returning no process handle — or succeeds returning the child's pid when
it is empty; in either case the error pipe's read end is also closed by
then.  Validity hypotheses say the five descriptors are not the
sentinel. -/
theorem launch_parent_branch (s : OsState) (errorPipe : Pipe)
    (ps : StandardStreamPipes) (pid : Int) (chunks : List String)
    (hw : pipeCastToNative (errorPipe.get .WRITE) ≠ INVALID_PIPE_VALUE)
    (hr : pipeCastToNative (errorPipe.get .READ) ≠ INVALID_PIPE_VALUE)
    (hi : pipeCastToNative ((ps.at .STDIN).get .READ) ≠ INVALID_PIPE_VALUE)
    (ho : pipeCastToNative ((ps.at .STDOUT).get .WRITE) ≠ INVALID_PIPE_VALUE)
    (he : pipeCastToNative ((ps.at .STDERR).get .WRITE) ≠ INVALID_PIPE_VALUE) :
    readAll (eofTrace chunks) = .ok (joinChunks chunks) ∧
    (launchParentBranch s errorPipe ps (eofTrace chunks) pid).2 =
      (if joinChunks chunks = "" then .ok pid
       else .error (.launchError (joinChunks chunks))) ∧
    pipeCastToNative (errorPipe.get .WRITE) ∉
      (launchParentBranch s errorPipe ps (eofTrace chunks) pid).1.openFds ∧
    pipeCastToNative ((ps.at .STDIN).get .READ) ∉
      (launchParentBranch s errorPipe ps (eofTrace chunks) pid).1.openFds ∧
    pipeCastToNative ((ps.at .STDOUT).get .WRITE) ∉
      (launchParentBranch s errorPipe ps (eofTrace chunks) pid).1.openFds ∧
    pipeCastToNative ((ps.at .STDERR).get .WRITE) ∉
      (launchParentBranch s errorPipe ps (eofTrace chunks) pid).1.openFds ∧
    pipeCastToNative (errorPipe.get .READ) ∉
      (launchParentBranch s errorPipe ps (eofTrace chunks) pid).1.openFds := by
  have hread := readAll_eofTrace chunks
  have hbranch : launchParentBranch s errorPipe ps (eofTrace chunks) pid =
      (pipeClose (closeChildSide (pipeClose s errorPipe .WRITE) ps)
        errorPipe .READ,
       if joinChunks chunks = "" then .ok pid
       else .error (.launchError (joinChunks chunks))) := by
    unfold launchParentBranch
    rw [hread]
    by_cases hempty : joinChunks chunks = "" <;> simp [hempty]
  rw [hbranch]
  refine ⟨hread, rfl, ?_, ?_, ?_, ?_, ?_⟩
  · intro hmem
    have h1 := pipeCloseDescriptor_subset _ hmem
    have h2 := mem_closeChildSide h1
    exact not_mem_pipeCloseDescriptor s hw h2
  · intro hmem
    have h1 := pipeCloseDescriptor_subset _ hmem
    have h2 := pipeCloseDescriptor_subset _ h1
    have h3 := pipeCloseDescriptor_subset _ h2
    exact not_mem_pipeCloseDescriptor _ hi h3
  · intro hmem
    have h1 := pipeCloseDescriptor_subset _ hmem
    have h2 := pipeCloseDescriptor_subset _ h1
    exact not_mem_pipeCloseDescriptor _ ho h2
  · intro hmem
    have h1 := pipeCloseDescriptor_subset _ hmem
    exact not_mem_pipeCloseDescriptor _ he h1
  · exact not_mem_pipeCloseDescriptor _ hr

/-- Witness for `launch_parent_branch` at a concrete launch whose child
reported the message "boom". -/
theorem launch_parent_branch_witness :
    (launchParentBranch ⟨[3, 4, 5, 6, 7, 8, 9, 10], 0⟩ ⟨⟨3, 4⟩⟩
        ⟨⟨⟨5, 6⟩⟩, ⟨⟨7, 8⟩⟩, ⟨⟨9, 10⟩⟩⟩ (eofTrace ["bo", "om"]) 42).2 =
      (if joinChunks ["bo", "om"] = "" then .ok 42
       else .error (.launchError (joinChunks ["bo", "om"]))) :=
  (launch_parent_branch ⟨[3, 4, 5, 6, 7, 8, 9, 10], 0⟩ ⟨⟨3, 4⟩⟩
    ⟨⟨⟨5, 6⟩⟩, ⟨⟨7, 8⟩⟩, ⟨⟨9, 10⟩⟩⟩ 42 ["bo", "om"] (by decide) (by decide)
    (by decide) (by decide) (by decide)).2.1

/-- C7, counterexample: in a run where `fork` fails, `launchProcess`
does report the failure synchronously as an errno error, but pipes have
already been touched before the error is raised — the error pipe and the
three standard pipes are created before the `fork` call. -/
theorem fork_failure_counterexample :
    (launchProcess ⟨[3, 4, 5, 6, 7, 8, 9, 10], 0⟩ ⟨⟨3, 4⟩⟩
        ⟨⟨⟨5, 6⟩⟩, ⟨⟨7, 8⟩⟩, ⟨⟨9, 10⟩⟩⟩ (.failed 11) []).2.2 =
      .error (.errnoError 11) ∧
    (launchProcess ⟨[3, 4, 5, 6, 7, 8, 9, 10], 0⟩ ⟨⟨3, 4⟩⟩
        ⟨⟨⟨5, 6⟩⟩, ⟨⟨7, 8⟩⟩, ⟨⟨9, 10⟩⟩⟩ (.failed 11) []).1.any
      LaunchEvent.touchesPipe = true := by
  exact ⟨rfl, rfl⟩

/-- C7, amended: if `fork` itself fails, `launchProcess` reports the
failure synchronously as an OS error carrying the fork errno,
immediately after the `fork` call and before any pipe end is closed,
read or written — but after the error pipe and the three standard pipes
have been created, which happens before `fork`. -/
theorem fork_failure_amended (s : OsState) (errorPipe : Pipe)
    (ps : StandardStreamPipes) (e : Nat) (os : List ReadResult) :
    launchProcess s errorPipe ps (ForkResult.failed e) os =
      ([.createErrorPipe, .openStdPipes, .forkCall], s,
        .error (.errnoError e)) ∧
    (launchProcess s errorPipe ps (ForkResult.failed e) os).1.all
      (fun ev => !ev.usesPipeEnd) = true :=
  ⟨rfl, rfl⟩

/-! ### Claim theorems: ProcessArguments -/

theorem toArgvPointers_eq (argv : List String) :
    toArgvPointers argv = argv.map some ++ [none] := by
  unfold toArgvPointers
  rw [List.range_succ, List.map_append]
  congr 1
  · apply List.ext_get (by simp)
    intro i h1 h2
    have hi : i < argv.length := by simpa using h2
    simp [List.get_map, List.get_range, hi]
  · simp

/-- C8: `ProcessArguments(p, a)` builds a null-terminated argv array of
exactly `a.length + 2` entries — entry 0 a copy of `p`, entry `i + 1` a
copy of `a[i]`, final entry the null pointer — in the constructor's
initialiser list; the members holding it are `const`, so it is never
mutated afterwards (the functional model has no mutation at all). -/
theorem processArguments_argv (p : String) (a : List String) :
    (ProcessArguments.construct p a).argvPointers.length = a.length + 2 ∧
    (ProcessArguments.construct p a).argvPointers.get? 0 = some (some p) ∧
    (∀ (i : Nat) (h : i < a.length),
      (ProcessArguments.construct p a).argvPointers.get? (i + 1) =
        some (some (a.get ⟨i, h⟩))) ∧
    (ProcessArguments.construct p a).argvPointers.getLast? = some none := by
  have hpointers : (ProcessArguments.construct p a).argvPointers =
      (some p :: a.map some) ++ [none] := by
    show toArgvPointers (duplicateArgvStrings p a) = _
    rw [toArgvPointers_eq]
    rfl
  refine ⟨?_, ?_, ?_, ?_⟩
  · rw [hpointers]
    simp
  · rw [hpointers]
    rfl
  · intro i h
    rw [hpointers]
    rw [List.cons_append, List.get?_cons_succ,
      List.get?_append (by simpa using h), List.get?_map,
      List.get?_eq_get h]
    rfl
  · rw [hpointers]
    exact List.getLast?_concat _

/-- Witness for `processArguments_argv` on a two-argument launch. -/
theorem processArguments_argv_witness :
    (ProcessArguments.construct "echo" ["-n", "hi"]).argvPointers.get? 2 =
      some (some "hi") :=
  (processArguments_argv "echo" ["-n", "hi"]).2.2.1 1 (by decide)

end Bdrck
